import Mathlib

/-!
Shallow embedding of `useVirtualScroller` (src/unnamed/part_000) from the
vue-virtual-scroller repository, together with theorems settling the
specification's claims about it.

Pixel quantities (`scrollTop`, `containerHeight` = viewportSize,
`itemHeight`) are modelled as rationals; `overscan` is a non-negative
integer (the spec's Config: "overscan: non-negative integer, default 2");
the item list is a Lean `List`, its length playing `itemCount`.
`Math.floor` / `Math.ceil` become `Int.floor` / `Int.ceil`, so the derived
indices live in `ℤ` exactly as the source computes them.
-/

namespace VirtualScroller

/-- The external scroll surface (`containerRef.value`): the two fields the
composable reads or writes. -/
structure Container where
  scrollTop : ℚ
  clientHeight : ℚ
  deriving Repr, DecidableEq

/-- Source: `visibleCount = Math.ceil(containerHeight.value / itemHeight)`. -/
def visibleCount (containerHeight itemHeight : ℚ) : ℤ :=
  ⌈containerHeight / itemHeight⌉

/-- Source: `startIndex = Math.max(0, Math.floor(scrollTop.value / itemHeight) - overscan)`. -/
def startIndex (scrollTop itemHeight : ℚ) (overscan : ℕ) : ℤ :=
  max 0 (⌊scrollTop / itemHeight⌋ - overscan)

/-- Source: `endIndex = Math.min(items.length, startIndex.value + visibleCount.value + overscan * 2)`. -/
def endIndex (itemCount : ℕ) (scrollTop containerHeight itemHeight : ℚ)
    (overscan : ℕ) : ℤ :=
  min (itemCount : ℤ)
    (startIndex scrollTop itemHeight overscan
      + visibleCount containerHeight itemHeight + overscan * 2)

/-- JavaScript array slice `Array.prototype.slice(a, b)` for the non-negative indices the
composable produces: elements from position `a` (inclusive) to `b`
(exclusive). -/
def jsSlice {T : Type} (l : List T) (a b : ℤ) : List T :=
  (l.take b.toNat).drop a.toNat

/-- Source: `visibleItems = items.slice(startIndex.value, endIndex.value)`. -/
def visibleItems {T : Type} (items : List T)
    (scrollTop containerHeight itemHeight : ℚ) (overscan : ℕ) : List T :=
  jsSlice items (startIndex scrollTop itemHeight overscan)
    (endIndex items.length scrollTop containerHeight itemHeight overscan)

/-- Source: `paddingTop = startIndex.value * itemHeight`. -/
def paddingTop (scrollTop itemHeight : ℚ) (overscan : ℕ) : ℚ :=
  (startIndex scrollTop itemHeight overscan : ℚ) * itemHeight

/-- Source: `paddingBottom = (items.length - endIndex.value) * itemHeight`. -/
def paddingBottom (itemCount : ℕ) (scrollTop containerHeight itemHeight : ℚ)
    (overscan : ℕ) : ℚ :=
  (((itemCount : ℤ)
      - endIndex itemCount scrollTop containerHeight itemHeight overscan : ℤ) : ℚ)
    * itemHeight

/-- The tuple of derived values the composable exposes (the spec's
`WindowResult`, plus the visible slice). -/
structure WindowResult (T : Type) where
  startIndex : ℤ
  endIndex : ℤ
  visibleCount : ℤ
  paddingTop : ℚ
  paddingBottom : ℚ
  visibleItems : List T
  deriving Repr

/-- One joint recomputation of every `computed` of the composable from the
current reactive state (`scrollTop`, `containerHeight`) and the fixed
configuration (`items`, `itemHeight`, `overscan`). -/
def computeWindow {T : Type} (items : List T) (itemHeight : ℚ) (overscan : ℕ)
    (scrollTop containerHeight : ℚ) : WindowResult T where
  startIndex := startIndex scrollTop itemHeight overscan
  endIndex := endIndex items.length scrollTop containerHeight itemHeight overscan
  visibleCount := visibleCount containerHeight itemHeight
  paddingTop := paddingTop scrollTop itemHeight overscan
  paddingBottom := paddingBottom items.length scrollTop containerHeight itemHeight overscan
  visibleItems := visibleItems items scrollTop containerHeight itemHeight overscan

/-- Source: `scrollToIndex(index)`: `if (containerRef.value) { containerRef.value.scrollTop
= index * itemHeight }` — writes `index * itemHeight` to the attached surface,
unclamped; leaves a detached (`none`) reference untouched. -/
def scrollToIndex (containerRef : Option Container) (itemHeight : ℚ)
    (index : ℤ) : Option Container :=
  match containerRef with
  | none => none
  | some c => some { c with scrollTop := (index : ℚ) * itemHeight }

/-- The configuration one call of `useVirtualScroller` closes over. -/
structure Engine (T : Type) where
  items : List T
  itemHeight : ℚ
  overscan : ℕ
  deriving Repr

/-- The construction path of `useVirtualScroller`: the source body performs no
validation of its options (in particular none of `itemHeight`) and has no
throw/failure path, so as a fallible constructor it returns `.ok` on every
input. The source default for `overscan` is `2`; it is passed explicitly
here. -/
def useVirtualScroller {T : Type} (items : List T) (itemHeight : ℚ)
    (overscan : ℕ) : Except String (Engine T) :=
  .ok { items := items, itemHeight := itemHeight, overscan := overscan }

end VirtualScroller

namespace VirtualScroller

/-- Helper: the visible count is non-negative whenever the viewport size is
non-negative and the item height is positive. -/
theorem visibleCount_nonneg (containerHeight itemHeight : ℚ)
    (hv : 0 ≤ containerHeight) (hh : 0 < itemHeight) :
    0 ≤ visibleCount containerHeight itemHeight :=
  Int.ceil_nonneg (div_nonneg hv hh.le)

/-- Helper: the start index is never negative. -/
theorem startIndex_nonneg (scrollTop itemHeight : ℚ) (overscan : ℕ) :
    0 ≤ startIndex scrollTop itemHeight overscan :=
  le_max_left _ _

/-- C1 counterexample. The claimed invariant `startIndex <= endIndex` fails at
itemCount = 0, viewportSize = 0, scrollOffset = 100, overscan = 0,
itemHeight = 20: there `startIndex = 5` but `endIndex = 0`, because the
source never clamps `startIndex` to `itemCount`. -/
theorem C1_counterexample :
    startIndex 100 20 0 = 5 ∧ endIndex 0 100 0 20 0 = 0 ∧
      ¬ startIndex 100 20 0 ≤ endIndex 0 100 0 20 0 := by
  norm_num [startIndex, endIndex, visibleCount]

/-- C1 amended. For itemCount ≥ 0, viewportSize ≥ 0, scrollOffset ≥ 0,
overscan ≥ 0, itemHeight > 0: `0 ≤ startIndex` and `0 ≤ endIndex ≤ itemCount`
hold unconditionally, and `startIndex ≤ endIndex` holds whenever the start
index itself has not run past the list end
(`startIndex ≤ itemCount`, e.g. whenever the scroll offset lies inside the
list's scrollable range). -/
theorem C1_window_invariant (itemCount overscan : ℕ)
    (scrollOffset viewportSize itemHeight : ℚ)
    (h0 : 0 ≤ scrollOffset) (hv : 0 ≤ viewportSize) (hh : 0 < itemHeight) :
    0 ≤ startIndex scrollOffset itemHeight overscan ∧
      0 ≤ endIndex itemCount scrollOffset viewportSize itemHeight overscan ∧
      endIndex itemCount scrollOffset viewportSize itemHeight overscan
        ≤ (itemCount : ℤ) ∧
      (startIndex scrollOffset itemHeight overscan ≤ (itemCount : ℤ) →
        startIndex scrollOffset itemHeight overscan
          ≤ endIndex itemCount scrollOffset viewportSize itemHeight overscan) := by
  have hvis := visibleCount_nonneg viewportSize itemHeight hv hh
  have hstart := startIndex_nonneg scrollOffset itemHeight overscan
  have hov : (0 : ℤ) ≤ (overscan : ℤ) * 2 := by positivity
  refine ⟨hstart, ?_, min_le_left _ _, ?_⟩
  · refine le_min (Int.natCast_nonneg _) ?_
    linarith
  · intro hin
    refine le_min hin ?_
    linarith

/-- C1 witness: the amended invariant instantiated at itemCount = 100,
scrollOffset = 400, viewportSize = 200, overscan = 1, itemHeight = 20. -/
theorem C1_window_invariant_witness :
    0 ≤ startIndex 400 20 1 ∧
      0 ≤ endIndex 100 400 200 20 1 ∧
      endIndex 100 400 200 20 1 ≤ (100 : ℤ) ∧
      (startIndex 400 20 1 ≤ (100 : ℤ) →
        startIndex 400 20 1 ≤ endIndex 100 400 200 20 1) :=
  C1_window_invariant 100 1 400 200 20 (by norm_num) (by norm_num)
    (by norm_num)

/-- C2: the construction path performs no validation at all. Even for
`itemHeight ≤ 0` the call returns the engine handles (`.ok`), contradicting
the claim that such configurations are rejected at construction. -/
theorem C2_construction_never_rejects (items : List ℕ) (itemHeight : ℚ)
    (overscan : ℕ) (hh : itemHeight ≤ 0) :
    useVirtualScroller items itemHeight overscan
      = .ok { items := items, itemHeight := itemHeight, overscan := overscan } :=
  rfl

/-- C2 witness: constructing with the failing input itemHeight = 0 succeeds. -/
theorem C2_construction_never_rejects_witness :
    useVirtualScroller ([] : List ℕ) 0 2
      = .ok { items := [], itemHeight := 0, overscan := 2 } :=
  C2_construction_never_rejects [] 0 2 (by norm_num)

/-- C3 counterexample. With itemCount = 0, scrollOffset = 100,
viewportSize = 0, itemHeight = 20, overscan = 0 the computed window has
`startIndex = 5` and `paddingTop = 100`, not the claimed zeros: `startIndex`
ignores `itemCount`, so an empty list does not force it to 0. -/
theorem C3_counterexample :
    (computeWindow ([] : List ℕ) 20 0 100 0).startIndex = 5 ∧
      (computeWindow ([] : List ℕ) 20 0 100 0).paddingTop = 100 ∧
      ¬ ((computeWindow ([] : List ℕ) 20 0 100 0).startIndex = 0 ∧
          (computeWindow ([] : List ℕ) 20 0 100 0).paddingTop = 0) := by
  norm_num [computeWindow, startIndex, paddingTop]

/-- C3 amended. When itemCount = 0 (with scrollOffset ≥ 0, viewportSize ≥ 0,
itemHeight > 0, any overscan): `endIndex = 0`, `paddingBottom = 0` and
`visibleItems = []` always hold; `startIndex = 0` and `paddingTop = 0` hold
additionally whenever `⌊scrollOffset / itemHeight⌋ ≤ overscan` (in
particular at scrollOffset = 0). -/
theorem C3_empty_list {T : Type} (scrollOffset viewportSize itemHeight : ℚ)
    (overscan : ℕ)
    (h0 : 0 ≤ scrollOffset) (hv : 0 ≤ viewportSize) (hh : 0 < itemHeight) :
    (computeWindow ([] : List T) itemHeight overscan scrollOffset viewportSize).endIndex = 0 ∧
      (computeWindow ([] : List T) itemHeight overscan scrollOffset viewportSize).paddingBottom = 0 ∧
      (computeWindow ([] : List T) itemHeight overscan scrollOffset viewportSize).visibleItems = [] ∧
      (⌊scrollOffset / itemHeight⌋ ≤ (overscan : ℤ) →
        (computeWindow ([] : List T) itemHeight overscan scrollOffset viewportSize).startIndex = 0 ∧
        (computeWindow ([] : List T) itemHeight overscan scrollOffset viewportSize).paddingTop = 0) := by
  have hvis := visibleCount_nonneg viewportSize itemHeight hv hh
  have hstart := startIndex_nonneg scrollOffset itemHeight overscan
  have hend :
      endIndex ([] : List T).length scrollOffset viewportSize itemHeight overscan = 0 := by
    simp only [endIndex, List.length_nil, Nat.cast_zero]
    refine min_eq_left ?_
    have hov : (0 : ℤ) ≤ (overscan : ℤ) * 2 := by positivity
    linarith
  have hpb :
      paddingBottom ([] : List T).length scrollOffset viewportSize itemHeight overscan = 0 := by
    unfold paddingBottom
    rw [hend]
    norm_num
  refine ⟨hend, hpb, ?_, ?_⟩
  · simp [computeWindow, visibleItems, jsSlice]
  · intro hle
    have hst : startIndex scrollOffset itemHeight overscan = 0 := by
      unfold startIndex
      refine max_eq_left ?_
      omega
    exact ⟨hst, by simp [computeWindow, paddingTop, hst]⟩

/-- C3 witness: the amended statement instantiated at scrollOffset = 0,
viewportSize = 500, itemHeight = 20, overscan = 2, with the side condition
`⌊0 / 20⌋ ≤ 2` discharged concretely. -/
theorem C3_empty_list_witness :
    (computeWindow ([] : List ℕ) 20 2 0 500).endIndex = 0 ∧
      (computeWindow ([] : List ℕ) 20 2 0 500).paddingBottom = 0 ∧
      (computeWindow ([] : List ℕ) 20 2 0 500).visibleItems = [] ∧
      (⌊(0 : ℚ) / 20⌋ ≤ (2 : ℤ) →
        (computeWindow ([] : List ℕ) 20 2 0 500).startIndex = 0 ∧
        (computeWindow ([] : List ℕ) 20 2 0 500).paddingTop = 0) :=
  C3_empty_list 0 500 20 2 (by norm_num) (by norm_num) (by norm_num)

end VirtualScroller

namespace VirtualScroller

/-- C4: total space is preserved exactly:
`paddingTop + (endIndex - startIndex) * itemHeight + paddingBottom
= itemCount * itemHeight`, for all itemCount ≥ 0, viewportSize ≥ 0,
scrollOffset ≥ 0, overscan ≥ 0 and itemHeight > 0. -/
theorem C4_total_space (itemCount overscan : ℕ)
    (scrollOffset viewportSize itemHeight : ℚ)
    (h0 : 0 ≤ scrollOffset) (hv : 0 ≤ viewportSize) (hh : 0 < itemHeight) :
    paddingTop scrollOffset itemHeight overscan
      + ((endIndex itemCount scrollOffset viewportSize itemHeight overscan
          - startIndex scrollOffset itemHeight overscan : ℤ) : ℚ) * itemHeight
      + paddingBottom itemCount scrollOffset viewportSize itemHeight overscan
      = (itemCount : ℚ) * itemHeight := by
  unfold paddingTop paddingBottom
  push_cast
  ring

/-- C4 witness: the identity at itemCount = 100, scrollOffset = 400,
viewportSize = 200, itemHeight = 20, overscan = 1
(380 + (31 - 19) * 20 + 1380 = 2000). -/
theorem C4_total_space_witness :
    paddingTop 400 20 1
      + ((endIndex 100 400 200 20 1 - startIndex 400 20 1 : ℤ) : ℚ) * 20
      + paddingBottom 100 400 200 20 1
      = (100 : ℚ) * 20 :=
  C4_total_space 100 1 400 200 20 (by norm_num) (by norm_num) (by norm_num)

/-- C5: the three worked scenarios of §8 of the spec, computed by the engine
exactly as listed. -/
theorem C5_scenarios :
    ((computeWindow (List.range 100) 20 1 0 200).visibleCount = 10 ∧
      (computeWindow (List.range 100) 20 1 0 200).startIndex = 0 ∧
      (computeWindow (List.range 100) 20 1 0 200).endIndex = 12 ∧
      (computeWindow (List.range 100) 20 1 0 200).paddingTop = 0 ∧
      (computeWindow (List.range 100) 20 1 0 200).paddingBottom = 1760) ∧
    ((computeWindow (List.range 100) 20 1 400 200).startIndex = 19 ∧
      (computeWindow (List.range 100) 20 1 400 200).endIndex = 31 ∧
      (computeWindow (List.range 100) 20 1 400 200).paddingTop = 380 ∧
      (computeWindow (List.range 100) 20 1 400 200).paddingBottom = 1380) ∧
    ((computeWindow (List.range 5) 20 2 0 500).endIndex = 5 ∧
      (computeWindow (List.range 5) 20 2 0 500).paddingBottom = 0) := by
  norm_num [computeWindow, visibleCount, startIndex, endIndex, paddingTop,
    paddingBottom, List.length_range]

/-- C6: with itemHeight > 0 and everything else fixed, `startIndex` is
monotone in the scroll offset: s1 ≤ s2 implies
`startIndex(s1) ≤ startIndex(s2)`. -/
theorem C6_startIndex_monotone (s1 s2 itemHeight : ℚ) (overscan : ℕ)
    (hs : s1 ≤ s2) (hh : 0 < itemHeight) :
    startIndex s1 itemHeight overscan ≤ startIndex s2 itemHeight overscan := by
  unfold startIndex
  have hfl : ⌊s1 / itemHeight⌋ ≤ ⌊s2 / itemHeight⌋ :=
    Int.floor_le_floor (div_le_div_of_nonneg_right hs hh.le)
  exact max_le_max le_rfl (sub_le_sub_right hfl _)

/-- C6 witness: monotonicity instantiated at s1 = 0 ≤ s2 = 400 with
itemHeight = 20, overscan = 1. -/
theorem C6_startIndex_monotone_witness :
    startIndex 0 20 1 ≤ startIndex 400 20 1 :=
  C6_startIndex_monotone 0 400 20 1 (by norm_num) (by norm_num)

/-- C7: `scrollToIndex` writes exactly `index * itemHeight` to an attached
surface for every integer index (no clamping by the core; in particular
index = 10 with itemHeight = 20 issues 200), and is a state-preserving
no-op when no surface is attached. -/
theorem C7_scrollToIndex (c : Container) (itemHeight : ℚ) (index : ℤ) :
    scrollToIndex (some c) itemHeight index
        = some { c with scrollTop := (index : ℚ) * itemHeight } ∧
      scrollToIndex none itemHeight index = none ∧
      scrollToIndex (some c) 20 10 = some { c with scrollTop := 200 } := by
  refine ⟨rfl, rfl, ?_⟩
  norm_num [scrollToIndex]

/-- C7 witness: `scrollToIndex` at the concrete surface (scrollTop 0,
clientHeight 300), itemHeight 20, index 10. -/
theorem C7_scrollToIndex_witness :
    scrollToIndex (some ⟨0, 300⟩) 20 10
        = some { Container.mk 0 300 with scrollTop := (10 : ℤ) * 20 } ∧
      scrollToIndex none 20 10 = none ∧
      scrollToIndex (some ⟨0, 300⟩) 20 10
        = some { Container.mk 0 300 with scrollTop := 200 } :=
  C7_scrollToIndex ⟨0, 300⟩ 20 10

/-- C8: at scrollOffset = 0 the start index is 0, for every overscan and
every itemHeight > 0 (itemCount and viewportSize do not enter
`startIndex` at all). -/
theorem C8_zero_offset (itemHeight : ℚ) (overscan : ℕ) (hh : 0 < itemHeight) :
    startIndex 0 itemHeight overscan = 0 := by
  unfold startIndex
  rw [zero_div, Int.floor_zero, zero_sub]
  exact max_eq_left (by omega)

/-- C8 witness: startIndex = 0 at scrollOffset = 0, itemHeight = 20,
overscan = 5. -/
theorem C8_zero_offset_witness : startIndex 0 20 5 = 0 :=
  C8_zero_offset 20 5 (by norm_num)

/-- C9: `startIndex` is independent of the viewport size — two states with
the same scrollOffset but different viewportSize yield identical
startIndex — and at viewportSize = 0 the visible count is 0 while
startIndex is still the scroll-derived value. -/
theorem C9_viewport_independence {T : Type} (items : List T) (itemHeight : ℚ)
    (overscan : ℕ) (scrollOffset v1 v2 : ℚ) (hh : 0 < itemHeight) :
    (computeWindow items itemHeight overscan scrollOffset v1).startIndex
        = (computeWindow items itemHeight overscan scrollOffset v2).startIndex ∧
      (computeWindow items itemHeight overscan scrollOffset 0).visibleCount = 0 ∧
      (computeWindow items itemHeight overscan scrollOffset 0).startIndex
        = startIndex scrollOffset itemHeight overscan := by
  refine ⟨rfl, ?_, rfl⟩
  simp [computeWindow, visibleCount]

/-- C9 witness: viewport-independence at items = range 100,
itemHeight = 20, overscan = 1, scrollOffset = 400, viewport sizes 0 and
200. -/
theorem C9_viewport_independence_witness :
    (computeWindow (List.range 100) 20 1 400 0).startIndex
        = (computeWindow (List.range 100) 20 1 400 200).startIndex ∧
      (computeWindow (List.range 100) 20 1 400 0).visibleCount = 0 ∧
      (computeWindow (List.range 100) 20 1 400 0).startIndex
        = startIndex 400 20 1 :=
  C9_viewport_independence (List.range 100) 20 1 400 0 200 (by norm_num)

/-- C10: for all valid inputs `0 ≤ endIndex ≤ itemCount`, hence
`paddingBottom ≥ 0`; and whenever the window has run past the end
(`endIndex ≤ startIndex`, as happens for scroll offsets far past the list),
the visible slice is empty rather than an error. -/
theorem C10_endIndex_bounds {T : Type} (items : List T) (itemHeight : ℚ)
    (overscan : ℕ) (scrollOffset viewportSize : ℚ)
    (h0 : 0 ≤ scrollOffset) (hv : 0 ≤ viewportSize) (hh : 0 < itemHeight) :
    0 ≤ endIndex items.length scrollOffset viewportSize itemHeight overscan ∧
      endIndex items.length scrollOffset viewportSize itemHeight overscan
        ≤ (items.length : ℤ) ∧
      0 ≤ paddingBottom items.length scrollOffset viewportSize itemHeight overscan ∧
      (endIndex items.length scrollOffset viewportSize itemHeight overscan
          ≤ startIndex scrollOffset itemHeight overscan →
        visibleItems items scrollOffset viewportSize itemHeight overscan = []) := by
  have hvis := visibleCount_nonneg viewportSize itemHeight hv hh
  have hstart := startIndex_nonneg scrollOffset itemHeight overscan
  have hub : endIndex items.length scrollOffset viewportSize itemHeight overscan
      ≤ (items.length : ℤ) := min_le_left _ _
  refine ⟨?_, hub, ?_, ?_⟩
  · refine le_min (Int.natCast_nonneg _) ?_
    have hov : (0 : ℤ) ≤ (overscan : ℤ) * 2 := by positivity
    linarith
  · unfold paddingBottom
    refine mul_nonneg ?_ hh.le
    have h1 : (0 : ℤ) ≤ (items.length : ℤ)
        - endIndex items.length scrollOffset viewportSize itemHeight overscan := by
      linarith [hub]
    exact_mod_cast h1
  · intro hle
    unfold visibleItems jsSlice
    refine List.drop_eq_nil_of_le ?_
    calc (items.take (endIndex items.length scrollOffset viewportSize
            itemHeight overscan).toNat).length
        ≤ (endIndex items.length scrollOffset viewportSize itemHeight
            overscan).toNat :=
          List.length_take_le _ _
      _ ≤ (startIndex scrollOffset itemHeight overscan).toNat :=
          Int.toNat_le_toNat hle

/-- C10 witness: the bounds at items = range 5, scrollOffset = 1000,
viewportSize = 200, itemHeight = 20, overscan = 2 — a scroll offset far
past the end of the list. -/
theorem C10_endIndex_bounds_witness :
    0 ≤ endIndex (List.range 5).length 1000 200 20 2 ∧
      endIndex (List.range 5).length 1000 200 20 2
        ≤ ((List.range 5).length : ℤ) ∧
      0 ≤ paddingBottom (List.range 5).length 1000 200 20 2 ∧
      (endIndex (List.range 5).length 1000 200 20 2
          ≤ startIndex 1000 20 2 →
        visibleItems (List.range 5) 1000 200 20 2 = []) :=
  C10_endIndex_bounds (List.range 5) 20 2 1000 200 (by norm_num) (by norm_num)
    (by norm_num)

end VirtualScroller
